import Mathlib

/-!
Verification of the plasmadeck coordinator core (src/plasmadeck.py).

The development shallowly embeds the parts of the program that the claims
talk about: the slot table (the Python list field `slots`), the window
registry (the Python dict field `windows`), the window-added and
window-removed callback methods, the key-press handler and its script
synthesis, the KWin script-runner load path, and the shutdown sequence of
`main`. Pure data flow is translated to Lean functions; Python exceptions
become `Except`; external collaborators (icon resolution, the device, the
remote scripting host, the OS write call) are modelled at their interface
boundary exactly as the source consumes them.
-/

namespace PlasmaDeck

/-- Window metadata record, translated from the `WindowData` dataclass
(src/plasmadeck.py lines 127-131). -/
structure WindowData where
  uuid : String
  caption : String
  resourceClass : String
deriving DecidableEq, Repr

/-- Membership test of a key in the window registry, modelling the Python
`uuid in dict` / implicit `del` lookup on `self.windows : dict[str, WindowData]`. -/
def dictMem (k : String) (d : List (String × WindowData)) : Bool :=
  d.any (fun p => p.1 == k)

/-- Insertion `self.windows[uuid] = data` on the registry: overwrite in place
when the key is present, append otherwise (Python dict semantics as an
association list in insertion order). -/
def dictInsert (k : String) (v : WindowData) (d : List (String × WindowData)) :
    List (String × WindowData) :=
  if dictMem k d then d.map (fun p => if p.1 == k then (k, v) else p)
  else d ++ [(k, v)]

/-- Deletion `del self.windows[uuid]` on a key known to be present. -/
def dictRemove (k : String) (d : List (String × WindowData)) :
    List (String × WindowData) :=
  d.filter (fun p => !(p.1 == k))

/-- Lookup `self.windows[uuid]` as an optional value. -/
def dictGet (k : String) (d : List (String × WindowData)) : Option WindowData :=
  (d.find? (fun p => p.1 == k)).map (fun p => p.2)

/-- The slot table as constructed by `PlasmaDeckWindowListener.__init__`
(src/plasmadeck.py line 221): a literal list of eight empty slots. The
constructor does not consult the device for its key count. -/
def slotsInit : List (Option String) := [none, none, none, none, none, none, none, none]

/-- Slot assignment, translated from the first-free-slot loop in
`WindowAdded` (src/plasmadeck.py lines 255-260): scan in index order, place
the uuid in the first `None` slot and stop; report the claimed index, or
`none` when every slot is occupied. -/
def assignLoop : List (Option String) → String → Option Nat × List (Option String)
  | [], _ => (none, [])
  | none :: rest, uuid => (some 0, some uuid :: rest)
  | some w :: rest, uuid =>
    let r := assignLoop rest uuid
    (r.1.map (fun k => k + 1), some w :: r.2)

/-- Slot release, translated from the loop in `WindowRemoved`
(src/plasmadeck.py lines 268-271): clear every slot whose occupant equals
the removed uuid (the loop has no break, so all matches are cleared). -/
def releaseLoop (uuid : String) : List (Option String) → List (Option String)
  | [] => []
  | slot :: rest => (if slot = some uuid then none else slot) :: releaseLoop uuid rest

/-- Mutable state of `PlasmaDeckWindowListener`: the window registry and the
slot table (src/plasmadeck.py lines 210-221). -/
structure ListenerState where
  windows : List (String × WindowData)
  slots : List (Option String)
deriving DecidableEq, Repr

/-- Constructor state of `PlasmaDeckWindowListener.__init__`
(src/plasmadeck.py lines 215-221). The device is modelled by its reported
key count; the source ignores it and hardcodes eight slots. -/
def listenerInit (deckKeyCount : Nat) : ListenerState :=
  { windows := [], slots := slotsInit }

/-- Initial state of a freshly constructed listener. -/
def initialState : ListenerState := listenerInit 8

/-- Outcome of the external icon pipeline consumed by `WindowAdded`
(src/plasmadeck.py lines 244-254 and 262): `unresolved` when
`get_icon_path_by_wm_class` returns `None` (line 244); `decodeError` when
`icon.get_file().get_path()` yields no usable path or
`cairosvg.svg2png` / `Image.open` / the PIL scaling raises (lines 246-254),
all of which happen before the slot loop; `decoded deviceFails` when an
image was produced, with `deviceFails` telling whether
`deck.set_key_image` at line 262 raises if it is invoked. -/
inductive IconOutcome where
  | unresolved
  | decodeError
  | decoded (deviceFails : Bool)
deriving DecidableEq, Repr

/-- The `WindowAdded` callback (src/plasmadeck.py lines 241-263),
parameterized by the icon-pipeline outcome. The result is the post-call
listener state together with the exception the call raises, if any: Python
keeps mutations made before a raise, and an exception skips everything after
it, in particular the registry insertion at line 263. On `unresolved` the
icon branch is skipped and the window is registered; on `decodeError` the
method raises before the slot loop, leaving the state unchanged; on
`decoded`, the first-free-slot loop runs, and then a failing
`deck.set_key_image` (invoked only when a slot was claimed) raises after the
slot mutation but before the registry insertion. -/
def WindowAdded (outcome : IconOutcome) (uuid caption resourceClass : String)
    (st : ListenerState) : ListenerState × Option String :=
  match outcome with
  | IconOutcome.unresolved =>
    ({ st with windows := dictInsert uuid ⟨uuid, caption, resourceClass⟩ st.windows }, none)
  | IconOutcome.decodeError => (st, some "ImageError")
  | IconOutcome.decoded deviceFails =>
    let r := assignLoop st.slots uuid
    if r.1.isSome && deviceFails then
      ({ st with slots := r.2 }, some "DeviceError")
    else
      ({ windows := dictInsert uuid ⟨uuid, caption, resourceClass⟩ st.windows,
         slots := r.2 }, none)

/-- The `WindowRemoved` callback (src/plasmadeck.py lines 265-271).
`del self.windows[uuid]` raises `KeyError` when the uuid is absent, before
the slot loop runs, leaving the state unchanged; otherwise the registry
entry is deleted and matching slots are cleared. -/
def WindowRemoved (uuid : String) (st : ListenerState) : Except String ListenerState :=
  if dictMem uuid st.windows then
    Except.ok { windows := dictRemove uuid st.windows, slots := releaseLoop uuid st.slots }
  else
    Except.error "KeyError"

/-- A window lifecycle event delivered by the observer script through DBus,
an added event carrying the outcome of its icon pipeline. -/
inductive Event where
  | added (outcome : IconOutcome) (uuid caption resourceClass : String)
  | removed (uuid : String)
deriving DecidableEq, Repr

/-- One event processed by the listener. An exception raised by a callback
is reported to the DBus caller as an error reply; the service keeps running
with whatever state the call left behind (for `WindowRemoved`, the
unchanged state). -/
def step (st : ListenerState) (e : Event) : ListenerState :=
  match e with
  | Event.added outcome u c r => (WindowAdded outcome u c r st).1
  | Event.removed u =>
    match WindowRemoved u st with
    | Except.ok st2 => st2
    | Except.error _ => st

/-- A whole sequence of events processed in order. -/
def runEvents (st : ListenerState) (es : List Event) : ListenerState :=
  es.foldl step st

/-- Number of slots occupied by a given identity. -/
def countSome (u : String) : List (Option String) → Nat
  | [] => 0
  | slot :: rest => (if slot = some u then 1 else 0) + countSome u rest

/-- The uniqueness invariant of the spec: a given window identity occupies
at most one slot. -/
def UniqueSlots (slots : List (Option String)) : Prop :=
  ∀ u : String, countSome u slots ≤ 1

/-- Admissibility of one event in a given state: a window-added event whose
icon resolution succeeds must carry an identity not currently occupying a
slot; every other event is unrestricted. -/
def admissibleAt (st : ListenerState) : Event → Bool
  | Event.added outcome u _ _ =>
    (match outcome with
     | IconOutcome.unresolved => true
     | _ => countSome u st.slots == 0)
  | Event.removed _ => true

/-- Admissible traces: every event is admissible in the state at which it is
processed. -/
def freshAdds : ListenerState → List Event → Bool
  | _, [] => true
  | st, e :: es => admissibleAt st e && freshAdds (step st e) es

theorem countSome_nil (u : String) : countSome u [] = 0 := rfl

theorem countSome_cons (u : String) (s : Option String) (rest : List (Option String)) :
    countSome u (s :: rest) = (if s = some u then 1 else 0) + countSome u rest := rfl

theorem assignLoop_length (slots : List (Option String)) (u : String) :
    (assignLoop slots u).2.length = slots.length := by
  induction slots with
  | nil => rfl
  | cons s rest ih =>
    cases s with
    | none => simp [assignLoop]
    | some w => simp [assignLoop, ih]

theorem releaseLoop_length (u : String) (slots : List (Option String)) :
    (releaseLoop u slots).length = slots.length := by
  induction slots with
  | nil => rfl
  | cons s rest ih => simp [releaseLoop, ih]

theorem releaseLoop_count_self (u : String) (slots : List (Option String)) :
    countSome u (releaseLoop u slots) = 0 := by
  induction slots with
  | nil => rfl
  | cons s rest ih =>
    by_cases h : s = some u
    · simp [releaseLoop, h, countSome_cons, ih]
    · simp [releaseLoop, h, countSome_cons, ih]

theorem releaseLoop_count_other (u v : String) (hvu : v ≠ u)
    (slots : List (Option String)) :
    countSome v (releaseLoop u slots) = countSome v slots := by
  have huv : u ≠ v := fun h => hvu h.symm
  induction slots with
  | nil => rfl
  | cons s rest ih =>
    by_cases h : s = some u
    · subst h
      simp [releaseLoop, countSome_cons, ih, huv]
    · simp [releaseLoop, h, countSome_cons, ih]

theorem releaseLoop_of_count_zero (u : String) (slots : List (Option String))
    (h : countSome u slots = 0) : releaseLoop u slots = slots := by
  induction slots with
  | nil => rfl
  | cons s rest ih =>
    rw [countSome_cons] at h
    by_cases hs : s = some u
    · simp [hs] at h
    · have hrest : countSome u rest = 0 := by
        simp [hs] at h
        exact h
      simp [releaseLoop, hs, ih hrest]

theorem assignLoop_count_self (slots : List (Option String)) (u : String) :
    countSome u (assignLoop slots u).2 ≤ countSome u slots + 1 := by
  induction slots with
  | nil => simp [assignLoop, countSome_nil]
  | cons s rest ih =>
    cases s with
    | none =>
      simp [assignLoop, countSome_cons]
      omega
    | some w =>
      simp only [assignLoop, countSome_cons]
      omega

theorem assignLoop_count_other (slots : List (Option String)) (u v : String)
    (hvu : v ≠ u) : countSome v (assignLoop slots u).2 = countSome v slots := by
  induction slots with
  | nil => rfl
  | cons s rest ih =>
    cases s with
    | none =>
      have huv : u ≠ v := fun h => hvu h.symm
      simp [assignLoop, countSome_cons, huv]
    | some w => simp [assignLoop, countSome_cons, ih]

theorem initial_unique : UniqueSlots initialState.slots := by
  intro u
  simp [initialState, listenerInit, slotsInit, countSome]

theorem step_preserves_unique (st : ListenerState) (e : Event)
    (hU : UniqueSlots st.slots)
    (hAdm : admissibleAt st e = true) :
    UniqueSlots (step st e).slots := by
  cases e with
  | added outcome u c r =>
    cases outcome with
    | unresolved =>
      simpa [step, WindowAdded] using hU
    | decodeError =>
      simpa [step, WindowAdded] using hU
    | decoded b =>
      have hzero : countSome u st.slots = 0 := by
        simpa [admissibleAt] using hAdm
      have hs : (step st (Event.added (IconOutcome.decoded b) u c r)).slots
          = (assignLoop st.slots u).2 := by
        cases h : ((assignLoop st.slots u).1.isSome && b) <;>
          simp [step, WindowAdded, h]
      intro v
      rw [hs]
      by_cases hv : v = u
      · subst hv
        have h1 := assignLoop_count_self st.slots v
        omega
      · rw [assignLoop_count_other st.slots u v hv]
        exact hU v
  | removed u =>
    by_cases hm : dictMem u st.windows
    · intro v
      by_cases hv : v = u
      · subst hv
        simp [step, WindowRemoved, hm, releaseLoop_count_self]
      · simp only [step, WindowRemoved, hm, if_true]
        rw [releaseLoop_count_other u v hv]
        exact hU v
    · simpa [step, WindowRemoved, hm] using hU

theorem runEvents_unique : ∀ (es : List Event) (st : ListenerState),
    UniqueSlots st.slots → freshAdds st es = true →
    UniqueSlots (runEvents st es).slots
  | [], st, hU, _ => hU
  | e :: es, st, hU, hF => by
    simp only [freshAdds, Bool.and_eq_true] at hF
    exact runEvents_unique es (step st e)
      (step_preserves_unique st e hU hF.1) hF.2

/-- C1 (amended): starting from the empty slot table, for every sequence of
window-added and window-removed events in which each window-added event whose
icon resolution succeeds carries an identity not currently occupying a slot,
every window identity occupies at most one slot at every point. (The source
claims this for all sequences, including duplicate additions; the
counterexample shows a duplicated window-added event makes one identity
occupy two slots, because the assignment loop never checks for presence.) -/
theorem c1_unique_slots (es : List Event) (h : freshAdds initialState es = true) :
    UniqueSlots (runEvents initialState es).slots :=
  runEvents_unique es initialState initial_unique h

/-- C1 counterexample: processing two window-added events that carry the same
identity (both with a successfully resolved and decoded icon) leaves that
identity occupying two slots, so the uniqueness invariant claimed for all
event sequences fails. -/
theorem c1_counterexample :
    ¬ UniqueSlots (runEvents initialState
      [Event.added (IconOutcome.decoded false) "w1" "cap" "cls",
       Event.added (IconOutcome.decoded false) "w1" "cap" "cls"]).slots := by
  intro h
  exact absurd (h "w1") (by decide)

/-- C1 witness: a concrete admissible event sequence for which the amended
theorem yields the uniqueness invariant. -/
theorem c1_witness :
    UniqueSlots (runEvents initialState
      [Event.added (IconOutcome.decoded false) "w1" "ca" "ra",
       Event.removed "w1",
       Event.added IconOutcome.unresolved "w2" "cb" "rb"]).slots :=
  c1_unique_slots _ (by decide)

/-- C2 counterexample: a window-removed event for an identity that is in no
slot and not in the registry raises KeyError from the registry deletion, so
it does fail the caller, contrary to the claim. -/
theorem c2_counterexample :
    WindowRemoved "ghost" initialState = Except.error "KeyError" := rfl

/-- C2 (amended): a window-removed event for an identity absent from the
Window Registry raises KeyError to the caller (the registry deletion fails
before the slot loop runs), the listener state is left unchanged, and the
slot-release scan for an identity occupying no slot leaves every slot
unchanged. -/
theorem c2_remove_absent (st : ListenerState) (u : String)
    (hreg : dictMem u st.windows = false)
    (hslot : countSome u st.slots = 0) :
    WindowRemoved u st = Except.error "KeyError" ∧
    step st (Event.removed u) = st ∧
    releaseLoop u st.slots = st.slots := by
  refine ⟨?_, ?_, releaseLoop_of_count_zero u st.slots hslot⟩
  · simp [WindowRemoved, hreg]
  · simp [step, WindowRemoved, hreg]

/-- C2 witness: the amended theorem applied at a fresh listener and an
unknown identity. -/
theorem c2_witness :
    WindowRemoved "ghost2" initialState = Except.error "KeyError" ∧
    step initialState (Event.removed "ghost2") = initialState ∧
    releaseLoop "ghost2" initialState.slots = initialState.slots :=
  c2_remove_absent initialState "ghost2" (by decide) (by decide)

/-- C8: assignment on a slot table whose every slot is occupied returns no
index and leaves the table unchanged, slot by slot. -/
theorem c8_assign_full (slots : List (Option String)) (u : String)
    (h : ∀ s ∈ slots, s ≠ none) :
    assignLoop slots u = (none, slots) := by
  induction slots with
  | nil => rfl
  | cons s rest ih =>
    cases s with
    | none => exact absurd rfl (h none (by simp))
    | some w =>
      have hrest := ih (fun x hx => h x (by simp [hx]))
      simp [assignLoop, hrest]

/-- C8 witness: the full-table theorem applied at a concrete two-slot table. -/
theorem c8_witness :
    assignLoop [some "a", some "b"] "w9" = (none, [some "a", some "b"]) :=
  c8_assign_full _ _ (by decide)

theorem roundtrip_aux (slots : List (Option String)) (u : String)
    (h : countSome u slots = 0) :
    releaseLoop u (assignLoop slots u).2 = slots := by
  induction slots with
  | nil => rfl
  | cons s rest ih =>
    rw [countSome_cons] at h
    cases s with
    | none =>
      have hrest : countSome u rest = 0 := by simpa using h
      simp [assignLoop, releaseLoop, releaseLoop_of_count_zero u rest hrest]
    | some w =>
      by_cases hw : (some w : Option String) = some u
      · rw [if_pos hw] at h
        omega
      · rw [if_neg hw, Nat.zero_add] at h
        simp [assignLoop, releaseLoop, hw, ih h]

/-- C9: on a slot table satisfying the uniqueness invariant, assigning an
identity that occupies no slot and then immediately releasing it returns the
table to its exact prior state, slot by slot. -/
theorem c9_round_trip (slots : List (Option String)) (u : String)
    (hU : UniqueSlots slots) (h : countSome u slots = 0) :
    releaseLoop u (assignLoop slots u).2 = slots :=
  roundtrip_aux slots u h

/-- C9 witness: the round-trip theorem applied at a concrete table with one
occupant and two free slots. -/
theorem c9_witness :
    releaseLoop "w3" (assignLoop [some "w4", none, none] "w3").2
      = [some "w4", none, none] :=
  c9_round_trip _ _ (by intro v; simp [countSome]; split <;> simp) (by decide)

/-- DBus service name (src/plasmadeck.py line 197). -/
def DBUS_ADDR : String := "net.shehadeh.PlasmaDeckWindowListener"

/-- DBus object path (src/plasmadeck.py line 198). -/
def DBUS_OBJ : String := "/net/shehadeh/PlasmaDeckWindowListener"

/-- DBus interface name (src/plasmadeck.py line 199). -/
def DBUS_IFACE : String := "net.shehadeh.PlasmaDeckWindowListener"

/-- The helper `js_call_dbus` (src/plasmadeck.py lines 201-202): formats a
JavaScript `callDBus` invocation with the fixed address, object and
interface, splicing the comma-joined argument expressions. -/
def js_call_dbus (args : List String) : String :=
  "callDBus(\"" ++ DBUS_ADDR ++ "\", \"" ++ DBUS_OBJ ++ "\", \"" ++ DBUS_IFACE
    ++ "\", " ++ String.intercalate "," args ++ ")"

/-- The shared `log` script fragment (src/plasmadeck.py lines 204-209),
prepended to every synthesized script. Brace and quote characters of the
JavaScript text are written with \x7b, \x7d and \x27 escapes. -/
def logFragment : String :=
  "\nfunction log(msg) \x7b\n    console.log(\x27PlasmaDeckWindowListener\x27, msg);\n    "
    ++ js_call_dbus ["\x27Log\x27", "msg.toString()"]
    ++ "\n\x7d\n"

/-- The string literal that embeds the target identity in the synthesized
activation script (src/plasmadeck.py lines 227-228): a single-quote
character, the identity spliced verbatim with no escaping, and a closing
single-quote character. -/
def comparisonLiteral (id : String) : String := "\x27" ++ id ++ "\x27"

/-- The activation script synthesized by `handle_press` for a target
identity (src/plasmadeck.py lines 225-231), as the concatenation the source
performs; the identity is spliced verbatim into the log line and into the
comparison position via `comparisonLiteral`. -/
def activationScript (id : String) : String :=
  logFragment
    ++ "\n                for(const win of workspace.windowList()) \x7b\n                    log(win.internalId.toString() + \" == \" + "
    ++ comparisonLiteral id
    ++ ");\n                    if (win.internalId.toString() == "
    ++ comparisonLiteral id
    ++ ")\n                        workspace.activeWindow = win\n                \x7d\n            "

/-- Calls made to the remote scripting host through `KWinScriptRunner` and
`LoadedKWinScript` (src/plasmadeck.py lines 151-195). -/
inductive HostCall where
  | load (script : String)
  | run
  | stop
  | unload
deriving DecidableEq, Repr

/-- The key-press callback `_cb` installed by `handle_press`
(src/plasmadeck.py lines 223-235), returning the list of host calls it
performs. Python evaluates the script concatenation first: indexing
`self.slots[key]` out of range raises IndexError, and concatenating the
occupant when the slot holds `None` raises TypeError, both before the
press/release check. Only then, on a press, the script is loaded and run. -/
def handle_press (slots : List (Option String)) (key : Nat) (state : Bool) :
    Except String (List HostCall) :=
  match slots.get? key with
  | none => Except.error "IndexError"
  | some none => Except.error "TypeError"
  | some (some id) =>
    let script := activationScript id
    if state then Except.ok [HostCall.load script, HostCall.run]
    else Except.ok []

/-- The long-lived observer script `SCRIPT` (src/plasmadeck.py lines
274-303), built by the same concatenation as the source. -/
def SCRIPT : String :=
  logFragment
    ++ "\nfunction add(window) \x7b\n  try \x7b\n    log(\"ADD [enter] caption=\x27\" + window.caption + \"\x27, resourceClass=\" + window.resourceClass);\n    "
    ++ js_call_dbus ["\x27WindowAdded\x27", "window.internalId.toString()", "window.caption", "window.resourceClass"]
    ++ "\n    log(\"ADD [exit] caption=\x27\" + window.caption + \"\x27, resourceClass=\" + window.resourceClass);\n  \x7d catch(e) \x7b\n    log(\"ADD [error] caption=\x27\" + window.caption + \"\x27, resourceClass=\" + window.resourceClass + \", error=\" + e.toString());\n  \x7d\n\x7d\n\nfunction remove(window) \x7b\n  try \x7b\n    log(\"REMOVE [enter] caption=\x27\" + window.caption + \"\x27, resourceClass=\" + window.resourceClass);\n    "
    ++ js_call_dbus ["\x27WindowRemoved\x27", "window.internalId.toString()", "window.caption", "window.resourceClass"]
    ++ "\n    log(\"REMOVE [exit] caption=\x27\" + window.caption + \"\x27, resourceClass=\" + window.resourceClass);\n  \x7d catch(e) \x7b\n    log(\"REMOVE [error] caption=\x27\" + window.caption + \"\x27, resourceClass=\" + window.resourceClass + \", error=\" + e.toString());\n  \x7d\n\x7d\n\nlog(\"INIT\")\n\nfor (const window of workspace.windowList()) \x7b\n  add(window)\n\x7d\n\nworkspace.windowAdded.connect(add)\nworkspace.windowRemoved.connect(remove)\n"

/-- The host calls issued by `main` (src/plasmadeck.py lines 333-340): the
observer script is loaded and run; when the awaited disconnect is cancelled
by a termination signal, the cleanup branch issues a single stop call and
nothing else. -/
def mainCalls (cancelled : Bool) : List HostCall :=
  [HostCall.load SCRIPT, HostCall.run] ++ (if cancelled then [HostCall.stop] else [])

/-- The single-quote character of the target scripting language. -/
def squote : Char := '\x27'

/-- The backslash character. -/
def backslash : Char := '\x5c'

/-- Modelled from the spec: whether a character may stand unescaped in the
body of a single-quoted string literal of the target scripting language
(JavaScript): anything except the quote itself, the escape character and
line terminators. -/
def okBodyChar (c : Char) : Bool :=
  !(c == squote) && !(c == backslash) && !(c.toNat == 10) && !(c.toNat == 13)

/-- Modelled from the spec: scanner for the tail of a single-quoted literal,
expecting escape-free body characters and then the closing quote as the last
character. -/
def closedBody : List Char → Bool
  | [] => false
  | c :: rest => if rest.isEmpty then c == squote else okBodyChar c && closedBody rest

/-- Modelled from the spec: syntactic validity of a whole single-quoted
string literal of the target scripting language, restricted to escape-free
bodies, which is the only form the synthesizer can emit since it performs no
escaping. -/
def validSingleQuoted (s : String) : Bool :=
  match s.data with
  | [] => false
  | c :: rest => c == squote && closedBody rest

/-- An identity value containing a quote character, adversarial for the
literal splice. -/
def adversarialId : String := "abc" ++ "\x27" ++ "123"

theorem append_singleton_isEmpty (l : List Char) :
    (l ++ [squote]).isEmpty = false := by
  cases l <;> rfl

theorem closedBody_append (l : List Char) (h : ∀ c ∈ l, okBodyChar c = true) :
    closedBody (l ++ [squote]) = true := by
  induction l with
  | nil => rfl
  | cons c l ih =>
    have hc := h c (List.mem_cons_self c l)
    have ih2 := ih (fun d hd => h d (List.mem_cons_of_mem c hd))
    show closedBody (c :: (l ++ [squote])) = true
    rw [closedBody, append_singleton_isEmpty l]
    simp [hc, ih2]

theorem comparisonLiteral_data (id : String) :
    (comparisonLiteral id).data = squote :: (id.data ++ [squote]) := by
  obtain ⟨l⟩ := id
  rfl

/-- C4 (amended): the synthesizer splices the identity between single quotes
verbatim, applying no escaping; consequently the comparison literal is
syntactically valid exactly for benign identities. For every identity whose
characters contain no single-quote, no backslash and no line terminator, the
literal embedded in the comparison position of the activation script is a
syntactically valid single-quoted literal of the target language. (The
counterexample shows an identity containing a quote character yields an
invalid literal, refuting the claim that the required escaping is applied.) -/
theorem c4_literal_valid (id : String) (h : ∀ c ∈ id.data, okBodyChar c = true) :
    validSingleQuoted (comparisonLiteral id) = true := by
  rw [validSingleQuoted, comparisonLiteral_data id]
  simp [closedBody_append id.data h]

/-- C4 counterexample: for an identity containing a quote character the
synthesized comparison literal is not syntactically valid, so the claim that
the synthesizer applies the escaping the language requires fails. -/
theorem c4_counterexample :
    validSingleQuoted (comparisonLiteral adversarialId) = false := by decide

/-- C4 witness: the amended theorem applied at the identity of the spec
example, whose characters are all benign. -/
theorem c4_witness : validSingleQuoted (comparisonLiteral "abc-123") = true :=
  c4_literal_valid "abc-123" (by decide)

/-- C3: evaluation of the key-event handler at the failing input. On a
freshly constructed listener every slot is empty; a key event on key 0, for
a press as for a release, raises TypeError while synthesizing the script
(the source concatenates the `None` occupant into the script text before
checking the press/release flag), so the handler is not a no-op, though no
load call is performed. A release event on an occupied slot performs no load
or run call. -/
theorem c3_empty_slot_key_event :
    handle_press slotsInit 0 true = Except.error "TypeError" ∧
    handle_press slotsInit 0 false = Except.error "TypeError" ∧
    (∀ id : String, handle_press [some id] 0 false = Except.ok []) :=
  ⟨rfl, rfl, fun _ => rfl⟩

/-- C5 counterexample: on cancellation the shutdown path of `main` issues no
unload call at all for the observer script, so the claimed stop-then-unload
sequence fails. -/
theorem c5_counterexample : (mainCalls true).count HostCall.unload = 0 := rfl

/-- C5 (amended): when a termination signal cancels the main task while the
observer script is loaded and running, the cleanup branch issues exactly one
stop call for the observer and never issues an unload call; the unload step
is always skipped. -/
theorem c5_shutdown_calls :
    mainCalls true = [HostCall.load SCRIPT, HostCall.run, HostCall.stop] ∧
    (mainCalls true).count HostCall.stop = 1 :=
  ⟨rfl, rfl⟩

/-- C6 counterexample: for a device reporting 15 keys (the standard device
key count) the constructed slot table does not have 15 slots, because the
constructor hardcodes a literal list of eight empty slots and never consults
the device. -/
theorem c6_counterexample : ¬ ((listenerInit 15).slots.length = 15) := by decide

/-- C6 (amended): at construction the slot table is created empty with
exactly eight slots regardless of the key count the device reports, and no
event processing ever changes the slot count. -/
theorem c6_slot_count :
    (∀ deckKeyCount : Nat, (listenerInit deckKeyCount).slots.length = 8) ∧
    (∀ (st : ListenerState) (e : Event), (step st e).slots.length = st.slots.length) := by
  constructor
  · intro _
    rfl
  · intro st e
    cases e with
    | added outcome u c r =>
      cases outcome with
      | unresolved => rfl
      | decodeError => rfl
      | decoded b =>
        cases h : ((assignLoop st.slots u).1.isSome && b) <;>
          simp [step, WindowAdded, h, assignLoop_length]
    | removed u =>
      by_cases hm : dictMem u st.windows
      · simp [step, WindowRemoved, hm, releaseLoop_length]
      · simp [step, WindowRemoved, hm]

theorem dictGet_append_self (k : String) (v : WindowData)
    (d : List (String × WindowData)) (h : dictMem k d = false) :
    dictGet k (d ++ [(k, v)]) = some v := by
  induction d with
  | nil => simp [dictGet, List.find?]
  | cons p d ih =>
    have hsplit : (p.1 == k) = false ∧ dictMem k d = false := by
      simpa [dictMem, Bool.or_eq_false_iff] using h
    have ihv := ih hsplit.2
    simp only [dictGet, List.cons_append, List.find?, hsplit.1] at ihv ⊢
    exact ihv

theorem dictGet_map_overwrite (k : String) (v : WindowData)
    (d : List (String × WindowData)) (h : dictMem k d = true) :
    dictGet k (d.map (fun p => if p.1 == k then (k, v) else p)) = some v := by
  induction d with
  | nil => simp [dictMem] at h
  | cons p d ih =>
    cases hp : (p.1 == k) with
    | true => simp [dictGet, List.find?, hp]
    | false =>
      have h2 : dictMem k d = true := by
        simpa [dictMem, List.any_cons, hp] using h
      have ihv := ih h2
      simp only [dictGet, List.map_cons, List.find?, hp, if_neg] at ihv ⊢
      simpa [hp] using ihv

theorem dictGet_insert (k : String) (v : WindowData)
    (d : List (String × WindowData)) :
    dictGet k (dictInsert k v d) = some v := by
  by_cases h : dictMem k d
  · rw [dictInsert, if_pos h]
    exact dictGet_map_overwrite k v d h
  · rw [dictInsert, if_neg (by simp [h])]
    exact dictGet_append_self k v d (by simpa using h)

/-- C7 (amended): the slot scan and the registry insertion of a
window-added event each depend on the icon pipeline. When icon resolution
fails, the slot table is left untouched even when free slots exist, and the
window is still registered. When resolution succeeds but decoding the image
raises, the method raises before the slot loop and before the registry
insertion, leaving the whole state unchanged. The first-free-slot scan runs
exactly when an image was decoded, whatever the device then does; but when
pushing the icon to the claimed key raises, the claimed slot is kept while
the registry insertion is skipped (a dangling slot). Only the fully
successful path both assigns per the scan and registers the window. -/
theorem c7_window_added (outcome : IconOutcome) (u c r : String) (st : ListenerState) :
    (WindowAdded IconOutcome.unresolved u c r st).1.slots = st.slots ∧
    dictGet u (WindowAdded IconOutcome.unresolved u c r st).1.windows = some ⟨u, c, r⟩ ∧
    (WindowAdded IconOutcome.decodeError u c r st).1 = st ∧
    (WindowAdded IconOutcome.decodeError u c r st).2 = some "ImageError" ∧
    (WindowAdded outcome u c r st).1.slots =
      (match outcome with
       | IconOutcome.decoded _ => (assignLoop st.slots u).2
       | _ => st.slots) ∧
    (WindowAdded (IconOutcome.decoded true) u c r st).1.windows =
      (if (assignLoop st.slots u).1.isSome then st.windows
       else dictInsert u ⟨u, c, r⟩ st.windows) ∧
    (WindowAdded (IconOutcome.decoded false) u c r st).2 = none ∧
    dictGet u (WindowAdded (IconOutcome.decoded false) u c r st).1.windows = some ⟨u, c, r⟩ := by
  refine ⟨rfl, dictGet_insert u ⟨u, c, r⟩ st.windows, rfl, rfl, ?_, ?_, ?_, ?_⟩
  · cases outcome with
    | unresolved => rfl
    | decodeError => rfl
    | decoded b =>
      cases h : ((assignLoop st.slots u).1.isSome && b) <;>
        simp [WindowAdded, h]
  · cases hk : (assignLoop st.slots u).1.isSome <;>
      simp [WindowAdded, hk]
  · simp [WindowAdded]
  · rw [show (WindowAdded (IconOutcome.decoded false) u c r st).1.windows
        = dictInsert u ⟨u, c, r⟩ st.windows by simp [WindowAdded]]
    exact dictGet_insert u ⟨u, c, r⟩ st.windows

/-- C7 counterexample: on a fresh listener a free slot exists, yet a
window-added event whose icon resolution fails claims no slot for the
window; and a window-added event whose image decoding raises does not
register the window at all, refuting both the
assignment-regardless-of-icon-outcome and the
always-registered-regardless-of-icon-outcome parts of the claim. -/
theorem c7_counterexample :
    none ∈ initialState.slots ∧
    countSome "w1" (WindowAdded IconOutcome.unresolved "w1" "cap" "cls" initialState).1.slots = 0 ∧
    dictGet "w1" (WindowAdded IconOutcome.decodeError "w1" "cap" "cls" initialState).1.windows = none := by
  exact ⟨by decide, by decide, by decide⟩

/-- UTF-8 encoding of one code point, as Python performs it in
`script.encode("utf-8")` (src/plasmadeck.py line 183). -/
def utf8EncodeChar (c : Char) : List Nat :=
  let n := c.toNat
  if n < 128 then [n]
  else if n < 2048 then [192 + n / 64, 128 + n % 64]
  else if n < 65536 then [224 + n / 4096, 128 + (n / 64) % 64, 128 + n % 64]
  else [240 + n / 262144, 128 + (n / 4096) % 64, 128 + (n / 64) % 64, 128 + n % 64]

/-- UTF-8 encoding of a whole script text, the `script_bytes` value of
`KWinScriptRunner.load` (src/plasmadeck.py line 183). -/
def utf8Encode (s : String) : List Nat :=
  (s.data.map utf8EncodeChar).flatten

/-- The internal assertion of `KWinScriptRunner.load` (src/plasmadeck.py
line 185): the byte count reported by the OS write equals the length of the
encoded script. -/
def kwinLoadAssert (script : String) (written_len : Nat) : Bool :=
  (utf8Encode script).length == written_len

/-- C10: the load path writes the complete UTF-8 encoding of the script text
to the fresh temp file, and whenever the OS write succeeds, reporting that
it wrote the whole buffer, the internal length assertion holds, so the
assertion branch is unreachable on a successful write. -/
theorem c10_load_assert (script : String) (written_len : Nat)
    (h : written_len = (utf8Encode script).length) :
    kwinLoadAssert script written_len = true := by
  subst h
  simp [kwinLoadAssert]

/-- C10 witness: the assertion theorem applied to the observer script itself
with the byte count a successful complete write reports. -/
theorem c10_witness : kwinLoadAssert SCRIPT ((utf8Encode SCRIPT).length) = true :=
  c10_load_assert SCRIPT _ rfl

end PlasmaDeck
